import Mathlib

/-!
# Verification of `kolibri_context.py` (kolibri-installer-gnome)

A shallow embedding of `src/kolibri_gnome/kolibri_context.py`:

* the session-status computation of `KolibriContext.__update_session_status`;
* the `_KolibriSetupHelper` callback handlers, modelled as pure state
  transformers over a record of its GObject properties (the host event loop
  delivers callbacks one at a time, so each handler is a function from the
  helper's state to a new state, possibly with emitted signals);
* Python's `urllib.parse` machinery (`urlsplit`, `parse_qs`, `urlencode`,
  `quote_plus`/`unquote`) restricted to what the module uses, modelled over
  `List Char` (a faithful model of a Python `str`, which is a sequence of
  code points);
* the URL classification and scope-filtering functions of
  `BaseKolibriContext`, `KolibriContext` and `KolibriChannelContext`.

External collaborators that the module only calls into (the
`KolibriDaemonManager`, the Kolibri content API, WebKit's cookie manager) are
modelled as abstract parameters: a daemon scope predicate, a content-API
lookup function, and cookie identifiers.
-/

namespace KolibriContext

/-! ## Session status (`BaseKolibriContext` constants,
`KolibriContext.__update_session_status`) -/

def SESSION_STATUS_ERROR : Nat := 0
def SESSION_STATUS_STOPPED : Nat := 1
def SESSION_STATUS_SETUP : Nat := 2
def SESSION_STATUS_READY : Nat := 3

/-- `KolibriContext.__update_session_status`: the handler that
`map_properties` invokes whenever `has-error`, `is-setup-available` or
`is-setup-complete` changes.  It assigns `session_status` from the three
flags alone. -/
def update_session_status
    (has_error is_setup_available is_setup_complete : Bool) : Nat :=
  if has_error then SESSION_STATUS_ERROR
  else if is_setup_complete then SESSION_STATUS_READY
  else if is_setup_available then SESSION_STATUS_SETUP
  else SESSION_STATUS_STOPPED

/-! ## `_KolibriSetupHelper` state machine

The helper's GObject properties together with the `__cookies_to_add` set.
Cookies are `Soup.Cookie` objects compared by identity; we model them as
natural-number identifiers.  `auth_token` is an optional string. -/

/-- A WebKit/libsoup cookie object, identified abstractly. -/
abbrev Cookie := Nat

inductive SetupSignal where
  | openSetupWizard
deriving DecidableEq

structure SetupState where
  auth_token : Option (List Char)
  is_auth_token_ready : Bool
  is_cookie_manager_ready : Bool
  is_kolibri_device_provisioned : Bool
  is_setup_available : Bool
  is_setup_complete : Bool
  cookies_to_add : List Cookie
deriving DecidableEq

/-- The helper's initial state: every property at its GObject default
(`default=False` / `default=None`), no pending cookies. -/
def initialSetupState : SetupState :=
  { auth_token := none
    is_auth_token_ready := false
    is_cookie_manager_ready := false
    is_kolibri_device_provisioned := false
    is_setup_available := false
    is_setup_complete := false
    cookies_to_add := [] }

/-- `all(setup_flags)` over the property values listed in the helper's
`map_properties` call. -/
def all_flags (flags : List Bool) : Bool := flags.all id

/-- `_KolibriSetupHelper.__update_is_setup_complete`, invoked by
`map_properties` whenever `is-cookie-manager-ready` or
`is-kolibri-device-provisioned` is assigned: recomputes
`is_setup_complete = all(setup_flags)`. -/
def update_is_setup_complete (s : SetupState) : SetupState :=
  { s with is_setup_complete :=
      all_flags [s.is_cookie_manager_ready, s.is_kolibri_device_provisioned] }

/-- `_KolibriSetupHelper.start_session_setup`.  The trailing call to
`get_login_token` is an asynchronous request with no immediate state change.
Assigning `is_kolibri_device_provisioned` triggers
`__update_is_setup_complete` via `map_properties`. -/
def start_session_setup (do_automatic_login : Bool) (s : SetupState) :
    SetupState :=
  if ¬ do_automatic_login then
    update_is_setup_complete
      { s with auth_token := none
               is_auth_token_ready := true
               is_setup_available := true
               is_kolibri_device_provisioned := true }
  else
    update_is_setup_complete
      { s with auth_token := none
               is_auth_token_ready := false
               is_setup_available := false
               is_kolibri_device_provisioned := false }

/-- `_KolibriSetupHelper.__kolibri_daemon_on_dbus_owner_changed`: resets
`is_cookie_manager_ready` and repeats the setup procedure from the start. -/
def on_dbus_owner_changed (do_automatic_login : Bool) (s : SetupState) :
    SetupState :=
  start_session_setup do_automatic_login
    (update_is_setup_complete { s with is_cookie_manager_ready := false })

/-- `_KolibriSetupHelper.__kolibri_daemon_on_get_login_token_ready`. -/
def on_get_login_token_ready (login_token : Option (List Char))
    (s : SetupState) : SetupState :=
  { s with auth_token := login_token, is_auth_token_ready := true }

/-- `_KolibriSetupHelper.__on_kolibri_initialize_api_ready`: marks setup
available; the provisioning check and cookie clearing it starts are
asynchronous calls whose responses arrive as later callbacks. -/
def on_kolibri_initialize_api_ready (s : SetupState) : SetupState :=
  { s with is_setup_available := true }

/-- `Soup.Status.BAD_REQUEST` (HTTP 400), from libsoup. -/
def SOUP_STATUS_BAD_REQUEST : Nat := 400

/-- `_KolibriSetupHelper.__on_kolibri_device_info_api_ready`: the device is
considered provisioned exactly when the response status is below 400; a
non-OK status additionally emits `open-setup-wizard`. -/
def on_kolibri_device_info_api_ready (status : Nat) (s : SetupState) :
    SetupState × List SetupSignal :=
  (update_is_setup_complete
    { s with is_kolibri_device_provisioned :=
        decide (status < SOUP_STATUS_BAD_REQUEST) },
   if status < SOUP_STATUS_BAD_REQUEST then [] else [.openSetupWizard])

/-- `_KolibriSetupHelper.__copy_cookies_from_soup_message_response`:
`self.__cookies_to_add = set(cookies)`; each `add_cookie` call is
asynchronous, answered by a later `__on_webkit_add_cookie_ready`. -/
def copy_cookies_from_soup_message_response (cookies : List Cookie)
    (s : SetupState) : SetupState :=
  { s with cookies_to_add := cookies.dedup }

/-- `_KolibriSetupHelper.__on_website_data_clear_finished`: on a
`GLib.Error` the handler logs and returns without calling `next_fn`;
otherwise `next_fn` repopulates the pending-cookie set. -/
def on_website_data_clear_finished (ok : Bool) (cookies : List Cookie)
    (s : SetupState) : SetupState :=
  if ok then copy_cookies_from_soup_message_response cookies s
  else s

/-- `_KolibriSetupHelper.__on_webkit_add_cookie_ready`: on a `GLib.Error`
the handler logs and returns; otherwise it removes the cookie from the
pending set and, once the set is empty, marks the cookie manager ready. -/
def on_webkit_add_cookie_ready (cookie : Cookie) (ok : Bool)
    (s : SetupState) : SetupState :=
  if ok then
    if (s.cookies_to_add.erase cookie).length = 0 then
      update_is_setup_complete
        { s with cookies_to_add := s.cookies_to_add.erase cookie,
                 is_cookie_manager_ready := true }
    else { s with cookies_to_add := s.cookies_to_add.erase cookie }
  else s

/-! ## Python string helpers

Python strings are sequences of Unicode code points; we model them as
`List Char`. -/

/-- The text before the first occurrence of `ch`, and the text after it
(`none` when `ch` does not occur).  Implements the splits that
`str.find` / `str.split(sep, 1)` / `str.partition` perform. -/
def breakAtChar (ch : Char) : List Char → List Char × Option (List Char)
  | [] => ([], none)
  | c :: rest =>
    if c = ch then ([], some rest)
    else
      let r := breakAtChar ch rest
      (c :: r.1, r.2)

/-- Python `str.split(sep)` for a one-character separator. -/
def splitOnChar (ch : Char) : List Char → List (List Char)
  | [] => [[]]
  | c :: rest =>
    let r := splitOnChar ch rest
    if c = ch then [] :: r
    else
      match r with
      | h :: t => (c :: h) :: t
      | [] => [[c]]

/-- Python `str.lstrip("/")`. -/
def lstripSlash (l : List Char) : List Char := l.dropWhile (· = '/')

/-- Python `str.partition("/")`, keeping the first and third components. -/
def partitionSlash (l : List Char) : List Char × List Char :=
  match breakAtChar '/' l with
  | (before, some after) => (before, after)
  | (before, none) => (before, [])

/-! ## `urllib.parse` percent-coding (`quote_plus`, `unquote`)

`urllib.parse.unquote` turns `%XX` escapes into bytes (an escape that is not
`%` followed by two hexadecimal digits stays literal), gathers them with the
surrounding literal ASCII characters into byte runs, and decodes each run as
UTF-8 with `errors="replace"`; non-ASCII characters pass through unchanged.
We model this by tokenizing the string into bytes and pass-through
characters, then UTF-8-decoding the byte runs. -/

def hexVal (c : Char) : Option Nat :=
  if '0' ≤ c ∧ c ≤ '9' then some (c.toNat - '0'.toNat)
  else if 'a' ≤ c ∧ c ≤ 'f' then some (c.toNat - 'a'.toNat + 10)
  else if 'A' ≤ c ∧ c ≤ 'F' then some (c.toNat - 'A'.toNat + 10)
  else none

def tokenizeAux : Nat → List Char → List (Nat ⊕ Char)
  | 0, _ => []
  | _ + 1, [] => []
  | fuel + 1, c :: rest =>
    if c = '%' then
      match rest with
      | h1 :: h2 :: r2 =>
        match hexVal h1, hexVal h2 with
        | some a, some b => Sum.inl (16 * a + b) :: tokenizeAux fuel r2
        | _, _ => Sum.inl 0x25 :: tokenizeAux fuel (h1 :: h2 :: r2)
      | r => Sum.inl 0x25 :: tokenizeAux fuel r
    else if c.toNat < 0x80 then Sum.inl c.toNat :: tokenizeAux fuel rest
    else Sum.inr c :: tokenizeAux fuel rest

def tokenize (l : List Char) : List (Nat ⊕ Char) := tokenizeAux l.length l

/-- U+FFFD, produced by `errors="replace"`. -/
def replChar : Char := Char.ofNat 0xFFFD

/-- Constraint on the second byte of a multi-byte UTF-8 sequence (shortest
form and surrogate exclusion). -/
def utf8SecondByteOk (b1 b2 : Nat) : Bool :=
  if b1 = 0xE0 then 0xA0 ≤ b2 ∧ b2 ≤ 0xBF
  else if b1 = 0xED then 0x80 ≤ b2 ∧ b2 ≤ 0x9F
  else if b1 = 0xF0 then 0x90 ≤ b2 ∧ b2 ≤ 0xBF
  else if b1 = 0xF4 then 0x80 ≤ b2 ∧ b2 ≤ 0x8F
  else 0x80 ≤ b2 ∧ b2 ≤ 0xBF

/-- UTF-8 decoding over the token stream, replacing each maximal invalid
subpart with U+FFFD.  Pass-through characters delimit byte runs.  The fuel
argument bounds the recursion; each step consumes at least one token, so
`length` fuel suffices. -/
def decodeTokensAux : Nat → List (Nat ⊕ Char) → List Char
  | 0, _ => []
  | _ + 1, [] => []
  | fuel + 1, Sum.inr c :: rest => c :: decodeTokensAux fuel rest
  | fuel + 1, Sum.inl b :: rest =>
    if b < 0x80 then Char.ofNat b :: decodeTokensAux fuel rest
    else if 0xC2 ≤ b ∧ b ≤ 0xDF then
      match rest with
      | Sum.inl b2 :: r2 =>
        if 0x80 ≤ b2 ∧ b2 ≤ 0xBF then
          Char.ofNat ((b - 0xC0) * 64 + (b2 - 0x80)) :: decodeTokensAux fuel r2
        else replChar :: decodeTokensAux fuel rest
      | _ => replChar :: decodeTokensAux fuel rest
    else if 0xE0 ≤ b ∧ b ≤ 0xEF then
      match rest with
      | Sum.inl b2 :: r2 =>
        if utf8SecondByteOk b b2 then
          match r2 with
          | Sum.inl b3 :: r3 =>
            if 0x80 ≤ b3 ∧ b3 ≤ 0xBF then
              Char.ofNat ((b - 0xE0) * 4096 + (b2 - 0x80) * 64 + (b3 - 0x80))
                :: decodeTokensAux fuel r3
            else replChar :: decodeTokensAux fuel r2
          | _ => replChar :: decodeTokensAux fuel r2
        else replChar :: decodeTokensAux fuel rest
      | _ => replChar :: decodeTokensAux fuel rest
    else if 0xF0 ≤ b ∧ b ≤ 0xF4 then
      match rest with
      | Sum.inl b2 :: r2 =>
        if utf8SecondByteOk b b2 then
          match r2 with
          | Sum.inl b3 :: r3 =>
            if 0x80 ≤ b3 ∧ b3 ≤ 0xBF then
              match r3 with
              | Sum.inl b4 :: r4 =>
                if 0x80 ≤ b4 ∧ b4 ≤ 0xBF then
                  Char.ofNat ((b - 0xF0) * 262144 + (b2 - 0x80) * 4096
                      + (b3 - 0x80) * 64 + (b4 - 0x80))
                    :: decodeTokensAux fuel r4
                else replChar :: decodeTokensAux fuel r3
              | _ => replChar :: decodeTokensAux fuel r3
            else replChar :: decodeTokensAux fuel r2
          | _ => replChar :: decodeTokensAux fuel r2
        else replChar :: decodeTokensAux fuel rest
      | _ => replChar :: decodeTokensAux fuel rest
    else replChar :: decodeTokensAux fuel rest

def decodeTokens (ts : List (Nat ⊕ Char)) : List Char :=
  decodeTokensAux ts.length ts

/-- `urllib.parse.unquote(s, encoding="utf-8", errors="replace")`. -/
def unquote (l : List Char) : List Char := decodeTokens (tokenize l)

/-- `str.replace("+", " ")`, the first half of plus-decoding in
`parse_qsl`. -/
def plusToSpace (l : List Char) : List Char :=
  l.map (fun c => if c = '+' then ' ' else c)

/-- `unquote_plus`, as `parse_qsl` applies it to each name and value. -/
def unquote_plus (l : List Char) : List Char := unquote (plusToSpace l)

/-- The UTF-8 bytes of a code point. -/
def utf8Bytes (n : Nat) : List Nat :=
  if n < 0x80 then [n]
  else if n < 0x800 then [0xC0 + n / 64, 0x80 + n % 64]
  else if n < 0x10000 then
    [0xE0 + n / 4096, 0x80 + (n / 64) % 64, 0x80 + n % 64]
  else
    [0xF0 + n / 262144, 0x80 + (n / 4096) % 64, 0x80 + (n / 64) % 64,
     0x80 + n % 64]

def hexDigitU (n : Nat) : Char :=
  if n < 10 then Char.ofNat ('0'.toNat + n) else Char.ofNat ('A'.toNat + n - 10)

def pctByte (b : Nat) : List Char := ['%', hexDigitU (b / 16), hexDigitU (b % 16)]

/-- `urllib.parse`'s always-safe characters: ASCII alphanumerics and
`_ . - ~`. -/
def ALWAYS_SAFE (c : Char) : Bool :=
  c.isAlphanum || c = '_' || c = '.' || c = '-' || c = '~'

/-- `urllib.parse.quote_plus(s, safe="")`: a space becomes `+`, a safe
character stands for itself, and any other character becomes the
percent-escapes of its UTF-8 bytes with uppercase hexadecimal digits. -/
def quote_plus (l : List Char) : List Char :=
  l.flatMap fun c =>
    if c = ' ' then ['+']
    else if ALWAYS_SAFE c then [c]
    else (utf8Bytes c.toNat).flatMap pctByte

/-- `urllib.parse.urlencode(query)` over an ordered association list (a
Python 3.7+ dict preserves insertion order), with the default
`quote_via=quote_plus`. -/
def urlencode (ps : List (List Char × List Char)) : List Char :=
  List.intercalate ['&']
    (ps.map fun p => quote_plus p.1 ++ '=' :: quote_plus p.2)

/-! ## `urllib.parse.parse_qs` and `urlsplit` -/

/-- `name_value.split("=", 1)`, appending an empty value when there is no
`=` (the `keep_blank_values=True` branch). -/
def splitEqOnce (nv : List Char) : List Char × List Char :=
  match breakAtChar '=' nv with
  | (n, some v) => (n, v)
  | (n, none) => (n, [])

/-- `urllib.parse.parse_qsl(qs, keep_blank_values=True)` with the default
`&` separator: an empty query gives no pairs, empty fields are skipped, and
every remaining field contributes its plus/percent-decoded name and value. -/
def parse_qsl (qs : List Char) : List (List Char × List Char) :=
  if qs = [] then []
  else
    (splitOnChar '&' qs).filterMap fun nv =>
      if nv = [] then none
      else
        let p := splitEqOnce nv
        some (unquote_plus p.1, unquote_plus p.2)

/-- `" ".join(parse_qs(query, keep_blank_values=True).get("search", []))`:
`parse_qs` groups `parse_qsl`'s pairs by name, preserving the order of the
values of each name. -/
def url_search_of_query (q : List Char) : List Char :=
  List.intercalate [' ']
    ((parse_qsl q).filterMap fun p =>
      if p.1 = "search".toList then some p.2 else none)

/-- The record `urllib.parse.urlsplit` returns (minus the unused
helpers). -/
structure SplitResult where
  scheme : List Char
  netloc : List Char
  path : List Char
  query : List Char
  fragment : List Char
deriving DecidableEq

/-- `urllib.parse.scheme_chars`. -/
def scheme_char (c : Char) : Bool := c.isAlphanum || c = '+' || c = '-' || c = '.'

/-- `urllib.parse.urlsplit` (CPython ≥ 3.11): strip leading
control-or-space characters, remove tab/CR/LF, split off a scheme when the
text before the first `:` is nonempty, starts with an ASCII letter and
consists of scheme characters (lower-casing it), then a `//`-introduced
netloc up to the next `/ ? #`, then the fragment after the first `#`, then
the query after the first `?`. -/
def urlsplit (url : List Char) : SplitResult :=
  let l1 := url.dropWhile (fun c => c.toNat ≤ 0x20)
  let l := l1.filter (fun c => ¬ (c = '\t' ∨ c = '\r' ∨ c = '\n'))
  let schemeRest : List Char × List Char :=
    match breakAtChar ':' l with
    | (c0 :: pre, some post) =>
      if c0.isAlpha && (c0 :: pre).all scheme_char
      then ((c0 :: pre).map Char.toLower, post) else ([], l)
    | _ => ([], l)
  let rest := schemeRest.2
  let netlocRest : List Char × List Char :=
    if rest.take 2 = ['/', '/'] then
      ((rest.drop 2).takeWhile (fun c => ¬ (c = '/' ∨ c = '?' ∨ c = '#')),
       (rest.drop 2).dropWhile (fun c => ¬ (c = '/' ∨ c = '?' ∨ c = '#')))
    else ([], rest)
  let fr := breakAtChar '#' netlocRest.2
  let qr := breakAtChar '?' fr.1
  ⟨schemeRest.1, netlocRest.1, qr.1, (qr.2).getD [], (fr.2).getD []⟩

/-- The domain on which `urlsplit` raises no exception: CPython rejects a
netloc with an unbalanced `[`/`]` and normalization-sensitive non-ASCII
netlocs.  We use the sufficient condition that the netloc is ASCII and
bracket-free. -/
def urlsplit_ok (url : List Char) : Bool :=
  let n := (urlsplit url).netloc
  (¬ n.contains '[') && (¬ n.contains ']') && n.all (fun c => c.toNat < 0x80)

/-! ## URI schemes and Kolibri URL translation -/

/-- Modelled from the spec: `KOLIBRI_URI_SCHEME` comes from
`kolibri_app.config`, which is not part of this excerpt; the spec names the
custom URL scheme `kolibri:`. -/
def KOLIBRI_URI_SCHEME : List Char := "kolibri".toList

/-- Modelled from the spec: `APP_URI_SCHEME` comes from
`kolibri_app.config`, which is not part of this excerpt; the spec names the
internal scheme `x-kolibri-app:`. -/
def APP_URI_SCHEME : List Char := "x-kolibri-app".toList

def LEARN_PATH_PREFIX : List Char := "/learn/#/".toList

/-- Python truthiness of a `typing.Optional[str]`: `None` and `""` are
falsy. -/
def truthy : Option (List Char) → Bool
  | none => false
  | some s => s ≠ []

/-- `BaseKolibriContext._get_kolibri_content_path`. -/
def _get_kolibri_content_path (node_id : List Char)
    (search : Option (List Char)) : List Char :=
  if truthy search then
    LEARN_PATH_PREFIX ++ "topics/c/".toList ++ node_id ++ '?' ::
      urlencode [("keywords".toList, search.getD []),
                 ("last".toList, "TOPICS_TOPIC_SEARCH".toList)]
  else
    LEARN_PATH_PREFIX ++ "topics/c/".toList ++ node_id

/-- `BaseKolibriContext._get_kolibri_topic_path`. -/
def _get_kolibri_topic_path (node_id : List Char)
    (search : Option (List Char)) : List Char :=
  if truthy search then
    LEARN_PATH_PREFIX ++ "topics/t/".toList ++ node_id ++ "/search?".toList
      ++ urlencode [("keywords".toList, search.getD [])]
  else
    LEARN_PATH_PREFIX ++ "topics/t/".toList ++ node_id

/-- `BaseKolibriContext._get_kolibri_library_path`. -/
def _get_kolibri_library_path (search : Option (List Char)) : List Char :=
  if truthy search then
    LEARN_PATH_PREFIX ++ "library?".toList
      ++ urlencode [("keywords".toList, search.getD [])]
  else
    LEARN_PATH_PREFIX ++ "home".toList

/-- `BaseKolibriContext.parse_kolibri_url_tuple`, parameterized by the
(virtually dispatched) `_get_kolibri_library_path` implementation. -/
def parse_kolibri_url_tuple_with
    (get_kolibri_library_path : Option (List Char) → List Char)
    (url_tuple : SplitResult) : List Char :=
  let url_path := lstripSlash url_tuple.path
  let url_search := url_search_of_query url_tuple.query
  let nt := partitionSlash url_path
  if nt.1 = "c".toList then
    _get_kolibri_content_path nt.2 (some url_search)
  else if nt.1 = "t".toList then
    _get_kolibri_topic_path nt.2 none
  else
    get_kolibri_library_path (some url_search)

/-- `parse_kolibri_url_tuple` as `KolibriContext` runs it. -/
def parse_kolibri_url_tuple (url_tuple : SplitResult) : List Char :=
  parse_kolibri_url_tuple_with _get_kolibri_library_path url_tuple

/-- `KolibriContext.get_absolute_url` on a `kolibri:` URL, before the
result is resolved against the daemon's base URL: `urlsplit` followed by
`parse_kolibri_url_tuple`. -/
def parse_kolibri_url (url : List Char) : List Char :=
  parse_kolibri_url_tuple (urlsplit url)

/-- `KolibriChannelContext.__default_path`. -/
def channel_default_path (channel_id : List Char) : List Char :=
  LEARN_PATH_PREFIX ++ "topics/t/".toList ++ channel_id

/-- `KolibriChannelContext.default_url`. -/
def channel_default_url (channel_id : List Char) : List Char :=
  APP_URI_SCHEME ++ ':' :: channel_default_path channel_id

/-- `KolibriChannelContext._get_kolibri_library_path` (the override). -/
def channel_get_kolibri_library_path (channel_id : List Char)
    (search : Option (List Char)) : List Char :=
  if truthy search then
    channel_default_path channel_id ++ "/search?".toList
      ++ urlencode [("keywords".toList, search.getD [])]
  else
    channel_default_path channel_id

/-- `parse_kolibri_url_tuple` as `KolibriChannelContext` runs it: the base
method body with the overridden `_get_kolibri_library_path`. -/
def channel_parse_kolibri_url_tuple (channel_id : List Char)
    (url_tuple : SplitResult) : List Char :=
  parse_kolibri_url_tuple_with (channel_get_kolibri_library_path channel_id)
    url_tuple

/-! ## `should_open_url` -/

/-- The members of `BaseKolibriContext` that `should_open_url` consults;
`default_url` and `is_url_in_scope` are abstract in the base class and
overridden by subclasses, so they are fields here. -/
structure BaseContext where
  default_url : List Char
  is_url_in_scope : List Char → Bool

/-- `BaseKolibriContext.should_open_url`. -/
def should_open_url (ctx : BaseContext) (url : List Char) : Bool :=
  decide (url = ctx.default_url)
    || [KOLIBRI_URI_SCHEME, APP_URI_SCHEME, "about".toList, "blob".toList
       ].contains (urlsplit url).scheme
    || ctx.is_url_in_scope url

/-! ## Channel scope filtering (`KolibriChannelContext`)

The channel context's collaborators: `KolibriDaemonManager.is_url_in_scope`
(whether the URL points at the daemon's origin) and the content API lookup
`kolibri_api_get("/api/content/contentnode/<id>")`, of which
`__is_learn_fragment_in_channel` only uses `response.get("channel_id")`.
`kolibri_api_channel_id` returns that field, or `none` when the response is
not a dict or lacks the key (both make the comparison fail in the code). -/
structure ChannelContext where
  channel_id : List Char
  daemon_is_url_in_scope : List Char → Bool
  kolibri_api_channel_id : List Char → Option (List Char)

/-- `KolibriContext.is_url_for_kolibri_app` (inherited by
`KolibriChannelContext`). -/
def is_url_for_kolibri_app (ctx : ChannelContext) (url : List Char) : Bool :=
  ctx.daemon_is_url_in_scope url &&
    (let url_path := lstripSlash (urlsplit url).path
     !("static/".toList.isPrefixOf url_path
        || "content/storage/".toList.isPrefixOf url_path))

/-- Python regex `\w` (which is Unicode-aware) restricted to ASCII:
letters, digits and `_`.  The ids this module matches are hexadecimal
strings, so the restriction is exact on the inputs of interest. -/
def isWordChar (c : Char) : Bool := c.isAlphanum || c = '_'

/-- A character of the `lang` group `[\w\-]`. -/
def isLangChar (c : Char) : Bool := isWordChar c || c = '-'

def STATIC_PATH_ALTERNATIVES : List (List Char) :=
  ["app".toList, "static".toList, "downloadcontent".toList,
   "content/storage".toList, "content/static".toList,
   "content/zipcontent".toList]

/-- `re.match(STATIC_PATHS_RE, path)` as a Bool:
`^(app|static|downloadcontent|content\/storage|content\/static|content\/zipcontent)\/?`
matches exactly when the path starts with one of the alternatives (the
trailing optional slash never restricts a match). -/
def static_paths_match (p : List Char) : Bool :=
  STATIC_PATH_ALTERNATIVES.any (fun alt => alt.isPrefixOf p)

/-- `re.match` of `^(?P<lang>[\w\-]+\/)?(kw₁|…|kwₙ)\/?`: a match either
starts with a keyword directly, or starts with a nonempty run of
word/hyphen characters, then the first `/` of the string, then a keyword.
(Since `[\w\-]` cannot match `/`, the `lang` group can only end at the
first slash.) -/
def opt_lang_match (kws : List (List Char)) (p : List Char) : Bool :=
  kws.any (fun kw => kw.isPrefixOf p) ||
  (match breakAtChar '/' p with
   | (before, some after) =>
     ¬ before.isEmpty && before.all isLangChar
       && kws.any (fun kw => kw.isPrefixOf after)
   | (_, none) => false)

/-- `re.match(SYSTEM_PATHS_RE, path)`:
`^(?P<lang>[\w\-]+\/)?(user|logout|redirectuser|learn\/app)\/?`. -/
def system_paths_match (p : List Char) : Bool :=
  opt_lang_match ["user".toList, "logout".toList, "redirectuser".toList,
                  "learn/app".toList] p

/-- `re.match(CONTENT_PATHS_RE, path)`: `^(?P<lang>[\w\-]+\/)?learn\/?`. -/
def content_paths_match (p : List Char) : Bool :=
  opt_lang_match ["learn".toList] p

def takeWordRun (l : List Char) : List Char := l.takeWhile isWordChar

/-- `KolibriChannelContext.__contentnode_id_for_learn_fragment`: the
`node_id` group of `re.match(r"^topics\/([ct]\/)?(?P<node_id>\w+)",
fragment)`.  After `topics/`, the optional `c/` or `t/` is consumed only
when at least one word character follows it (otherwise the regex
backtracks to an empty optional group); the node id is then the maximal
run of word characters, and the match fails when that run is empty. -/
def contentnode_id_for_learn_fragment (fragment : List Char) :
    Option (List Char) :=
  if "topics/".toList.isPrefixOf fragment then
    let s := fragment.drop 7
    let s2 :=
      if ("c/".toList.isPrefixOf s || "t/".toList.isPrefixOf s)
          && ¬ (takeWordRun (s.drop 2)).isEmpty
      then s.drop 2 else s
    if (takeWordRun s2).isEmpty then none else some (takeWordRun s2)
  else none

/-- `KolibriChannelContext.__is_learn_fragment_in_channel`. -/
def is_learn_fragment_in_channel (ctx : ChannelContext)
    (fragment : List Char) : Bool :=
  let frag := lstripSlash fragment
  if "content-unavailable".toList.isPrefixOf frag
      || "search".toList.isPrefixOf frag then true
  else
    match contentnode_id_for_learn_fragment frag with
    | none => false
    | some contentnode_id =>
      if contentnode_id = ctx.channel_id then true
      else
        match ctx.kolibri_api_channel_id contentnode_id with
        | none => false
        | some contentnode_channel =>
          decide (contentnode_channel = ctx.channel_id)

/-- `KolibriChannelContext.is_url_in_scope`. -/
def channel_is_url_in_scope (ctx : ChannelContext) (url : List Char) : Bool :=
  is_url_for_kolibri_app ctx url &&
    (let url_tuple := urlsplit url
     let url_path := lstripSlash url_tuple.path
     if static_paths_match url_path then true
     else if system_paths_match url_path then true
     else if content_paths_match url_path then
       is_learn_fragment_in_channel ctx url_tuple.fragment
     else false)

/-! ## Helper lemmas -/

theorem breakAtChar_not_mem {ch : Char} {l : List Char} (h : ch ∉ l) :
    breakAtChar ch l = (l, none) := by
  induction l with
  | nil => rfl
  | cons c rest ih =>
    simp only [List.mem_cons, not_or] at h
    simp [breakAtChar, Ne.symm h.1, ih h.2]

theorem breakAtChar_append {ch : Char} {l₁ l₂ : List Char} (h : ch ∉ l₁) :
    breakAtChar ch (l₁ ++ ch :: l₂) = (l₁, some l₂) := by
  induction l₁ with
  | nil => simp [breakAtChar]
  | cons c rest ih =>
    simp only [List.mem_cons, not_or] at h
    simp [breakAtChar, Ne.symm h.1, ih h.2]

theorem splitOnChar_not_mem {ch : Char} {l : List Char} (h : ch ∉ l) :
    splitOnChar ch l = [l] := by
  induction l with
  | nil => rfl
  | cons c rest ih =>
    simp only [List.mem_cons, not_or] at h
    simp [splitOnChar, Ne.symm h.1, ih h.2]

theorem plusToSpace_not_percent {l : List Char} (h : '%' ∉ l) :
    '%' ∉ plusToSpace l := by
  intro hm
  rcases List.mem_map.mp hm with ⟨c, hc, he⟩
  by_cases hp : c = '+'
  · simp [hp] at he
  · rw [if_neg hp] at he
    exact h (he ▸ hc)

theorem tokenizeAux_no_percent {l : List Char} (h : '%' ∉ l) :
    ∀ fuel, l.length ≤ fuel →
      tokenizeAux fuel l = l.map
        (fun c => if c.toNat < 0x80 then Sum.inl c.toNat else Sum.inr c) := by
  induction l with
  | nil => intro fuel _; cases fuel <;> rfl
  | cons c rest ih =>
    intro fuel hf
    cases fuel with
    | zero => simp at hf
    | succ fu =>
      simp only [List.mem_cons, not_or] at h
      have hc : ¬ c = '%' := fun e => h.1 e.symm
      have hr := ih h.2 fu (by simpa using hf)
      rcases rest with _ | ⟨h1, _ | ⟨h2, r2⟩⟩
      · rw [tokenizeAux.eq_4 fu c [] (by simp), if_neg hc]
        by_cases hlt : c.toNat < 0x80 <;> simp [hlt, hr]
      · rw [tokenizeAux.eq_4 fu c [h1] (by simp), if_neg hc]
        by_cases hlt : c.toNat < 0x80 <;> simp [hlt, hr]
      · rw [tokenizeAux.eq_3, if_neg hc]
        by_cases hlt : c.toNat < 0x80 <;> simp [hlt, hr]

theorem decodeTokensAux_ascii_map {l : List Char} :
    ∀ fuel, l.length ≤ fuel →
      decodeTokensAux fuel
        (l.map (fun c => if c.toNat < 0x80 then Sum.inl c.toNat else Sum.inr c))
        = l := by
  induction l with
  | nil => intro fuel _; cases fuel <;> rfl
  | cons c rest ih =>
    intro fuel hf
    cases fuel with
    | zero => simp at hf
    | succ fu =>
      by_cases hc : c.toNat < 0x80 <;>
        simp [decodeTokensAux, hc, ih fu (by simpa using hf)]

theorem unquote_no_percent {l : List Char} (h : '%' ∉ l) : unquote l = l := by
  rw [unquote, tokenize, tokenizeAux_no_percent h l.length le_rfl, decodeTokens]
  exact decodeTokensAux_ascii_map _ (by simp)

theorem unquote_plus_no_percent {l : List Char} (h : '%' ∉ l) :
    unquote_plus l = plusToSpace l :=
  unquote_no_percent (plusToSpace_not_percent h)

/-! ## Claim theorems: session status and setup state -/

/-- **C2.** `session_status` is a pure function of
(`has_error`, `is_setup_available`, `is_setup_complete`): it is `ERROR`
whenever `has_error` holds, regardless of the other flags; otherwise
`READY` when `is_setup_complete` holds; otherwise `SETUP` when
`is_setup_available` holds; otherwise `STOPPED`. -/
theorem update_session_status_pure_function :
    ∀ has_error is_setup_available is_setup_complete : Bool,
      (update_session_status has_error is_setup_available is_setup_complete
          = SESSION_STATUS_ERROR ↔ has_error = true) ∧
      (update_session_status has_error is_setup_available is_setup_complete
          = SESSION_STATUS_READY ↔
        (has_error = false ∧ is_setup_complete = true)) ∧
      (update_session_status has_error is_setup_available is_setup_complete
          = SESSION_STATUS_SETUP ↔
        (has_error = false ∧ is_setup_complete = false
          ∧ is_setup_available = true)) ∧
      (update_session_status has_error is_setup_available is_setup_complete
          = SESSION_STATUS_STOPPED ↔
        (has_error = false ∧ is_setup_complete = false
          ∧ is_setup_available = false)) := by
  decide

/-- The C3 invariant: `is_setup_complete` agrees with the conjunction of
its two inputs. -/
def setup_complete_invariant (s : SetupState) : Prop :=
  s.is_setup_complete
    = (s.is_cookie_manager_ready && s.is_kolibri_device_provisioned)

theorem update_is_setup_complete_inv (s : SetupState) :
    setup_complete_invariant (update_is_setup_complete s) := by
  simp [setup_complete_invariant, update_is_setup_complete, all_flags]

/-- **C3.** After every handler that assigns either
`is_cookie_manager_ready` or `is_kolibri_device_provisioned` (and hence
triggers `__update_is_setup_complete` through `map_properties`),
`is_setup_complete` is true iff both flags are true; the cookie-add
handler assigns the flag only when it flips it to true. -/
theorem is_setup_complete_iff_both_flags :
    ∀ (s : SetupState) (do_automatic_login : Bool) (status : Nat)
      (cookie : Cookie) (ok : Bool),
      setup_complete_invariant (start_session_setup do_automatic_login s) ∧
      setup_complete_invariant (on_dbus_owner_changed do_automatic_login s) ∧
      setup_complete_invariant
        (on_kolibri_device_info_api_ready status s).1 ∧
      ((on_webkit_add_cookie_ready cookie ok s).is_cookie_manager_ready
          ≠ s.is_cookie_manager_ready →
        setup_complete_invariant (on_webkit_add_cookie_ready cookie ok s)) ∧
      setup_complete_invariant initialSetupState := by
  intro s al status cookie ok
  refine ⟨?_, ?_, ?_, ?_, by simp [setup_complete_invariant, initialSetupState]⟩
  · unfold start_session_setup
    split <;> exact update_is_setup_complete_inv _
  · unfold on_dbus_owner_changed start_session_setup
    split <;> exact update_is_setup_complete_inv _
  · exact update_is_setup_complete_inv _
  · intro hne
    by_cases hok : ok
    · subst hok
      by_cases hlen : (s.cookies_to_add.erase cookie).length = 0
      · simpa [on_webkit_add_cookie_ready, hlen] using
          update_is_setup_complete_inv
            { s with cookies_to_add := s.cookies_to_add.erase cookie,
                     is_cookie_manager_ready := true }
      · exact absurd (by simp [on_webkit_add_cookie_ready, hlen]) hne
    · simp only [Bool.not_eq_true] at hok
      subst hok
      exact absurd (by simp [on_webkit_add_cookie_ready]) hne

/-- A concrete instantiation of `is_setup_complete_iff_both_flags`,
discharging its hypothesis on the cookie-add conjunct at the initial
state. -/
theorem is_setup_complete_iff_both_flags_witness :
    setup_complete_invariant (start_session_setup false initialSetupState) ∧
    setup_complete_invariant
      (on_webkit_add_cookie_ready 0 true
        { initialSetupState with cookies_to_add := [0] }) :=
  ⟨(is_setup_complete_iff_both_flags initialSetupState false 200 0 true).1,
   (is_setup_complete_iff_both_flags
      { initialSetupState with cookies_to_add := [0] } false 200 0 true).2.2.2.1
     (by decide)⟩

/-- **C6.** Setup errors do not raise: a device-info response with status
≥ 400 leaves the device unprovisioned and emits `open-setup-wizard`, an OK
response provisions it and emits nothing, and a failed cookie add or a
failed cookie clear leaves the state unchanged (the handler logs and
returns). -/
theorem setup_errors_routed_to_wizard :
    ∀ (s : SetupState) (status : Nat) (cookie : Cookie)
      (cookies : List Cookie),
      (SOUP_STATUS_BAD_REQUEST ≤ status →
        (on_kolibri_device_info_api_ready status s).1.is_kolibri_device_provisioned
            = false ∧
        (on_kolibri_device_info_api_ready status s).2
            = [SetupSignal.openSetupWizard]) ∧
      (status < SOUP_STATUS_BAD_REQUEST →
        (on_kolibri_device_info_api_ready status s).1.is_kolibri_device_provisioned
            = true ∧
        (on_kolibri_device_info_api_ready status s).2 = []) ∧
      on_webkit_add_cookie_ready cookie false s = s ∧
      on_website_data_clear_finished false cookies s = s := by
  intro s status cookie cookies
  refine ⟨?_, ?_, by simp [on_webkit_add_cookie_ready],
    by simp [on_website_data_clear_finished]⟩
  · intro h
    have hlt : ¬ status < SOUP_STATUS_BAD_REQUEST := not_lt.mpr h
    simp [on_kolibri_device_info_api_ready, update_is_setup_complete, hlt]
  · intro h
    simp [on_kolibri_device_info_api_ready, update_is_setup_complete, h]

/-- A concrete instantiation of `setup_errors_routed_to_wizard` at status
404 (not provisioned, wizard opened) and status 200 (provisioned). -/
theorem setup_errors_routed_to_wizard_witness :
    ((on_kolibri_device_info_api_ready 404 initialSetupState).1.is_kolibri_device_provisioned
        = false ∧
      (on_kolibri_device_info_api_ready 404 initialSetupState).2
        = [SetupSignal.openSetupWizard]) ∧
    (on_kolibri_device_info_api_ready 200 initialSetupState).1.is_kolibri_device_provisioned
        = true :=
  ⟨(setup_errors_routed_to_wizard initialSetupState 404 0 []).1 (by decide),
   ((setup_errors_routed_to_wizard initialSetupState 200 0 []).2.1
      (by decide)).1⟩

/-- **C7.** During cookie-jar repopulation, `is_cookie_manager_ready` is
never newly set while a cookie is still pending: a failed add leaves the
state unchanged, a successful add removes exactly that cookie and sets the
flag exactly when the pending set becomes empty, repopulation itself never
sets the flag, and whenever the flag is true after an add it was already
true or no cookie remains pending. -/
theorem cookie_manager_ready_iff_pending_empty :
    ∀ (s : SetupState) (cookie : Cookie) (ok : Bool)
      (cookies : List Cookie),
      (ok = false → on_webkit_add_cookie_ready cookie ok s = s) ∧
      (ok = true →
        (on_webkit_add_cookie_ready cookie ok s).cookies_to_add
            = s.cookies_to_add.erase cookie ∧
        (on_webkit_add_cookie_ready cookie ok s).is_cookie_manager_ready
            = ((s.cookies_to_add.erase cookie).isEmpty
                || s.is_cookie_manager_ready)) ∧
      ((copy_cookies_from_soup_message_response cookies s).is_cookie_manager_ready
          = s.is_cookie_manager_ready) ∧
      ((on_webkit_add_cookie_ready cookie ok s).is_cookie_manager_ready = true →
        s.is_cookie_manager_ready = true ∨
        (on_webkit_add_cookie_ready cookie ok s).cookies_to_add = []) := by
  intro s cookie ok cookies
  refine ⟨fun h => by simp [on_webkit_add_cookie_ready, h], ?_, ?_, ?_⟩
  · intro h
    subst h
    cases he : s.cookies_to_add.erase cookie with
    | nil => simp [on_webkit_add_cookie_ready, he, update_is_setup_complete]
    | cons a t => simp [on_webkit_add_cookie_ready, he]
  · simp [copy_cookies_from_soup_message_response]
  · intro h
    by_cases hok : ok
    · subst hok
      cases he : s.cookies_to_add.erase cookie with
      | nil =>
        right
        simp [on_webkit_add_cookie_ready, he, update_is_setup_complete]
      | cons a t =>
        left
        simpa [on_webkit_add_cookie_ready, he] using h
    · simp only [Bool.not_eq_true] at hok
      subst hok
      left
      simpa [on_webkit_add_cookie_ready] using h

/-- A concrete instantiation of `cookie_manager_ready_iff_pending_empty`:
with two pending cookies, a successful add of one leaves the flag false;
adding the last one sets it. -/
theorem cookie_manager_ready_iff_pending_empty_witness :
    (on_webkit_add_cookie_ready 1 true
      { initialSetupState with cookies_to_add := [1, 2] }).is_cookie_manager_ready
      = ((([1, 2] : List Cookie).erase 1).isEmpty || false) :=
  ((cookie_manager_ready_iff_pending_empty
      { initialSetupState with cookies_to_add := [1, 2] } 1 true []).2.1 rfl).2

/-- **C8.** A daemon D-Bus owner change resets `is_cookie_manager_ready`
and restarts the setup sequence from the start; with automatic login
enabled this resets `auth_token`, `is_auth_token_ready`,
`is_setup_available` and `is_kolibri_device_provisioned` to their initial
not-ready values. -/
theorem dbus_owner_change_resets_setup :
    ∀ (s : SetupState) (do_automatic_login : Bool),
      (on_dbus_owner_changed do_automatic_login s).is_cookie_manager_ready
          = false ∧
      on_dbus_owner_changed do_automatic_login s
        = start_session_setup do_automatic_login
            (update_is_setup_complete
              { s with is_cookie_manager_ready := false }) ∧
      (do_automatic_login = true →
        on_dbus_owner_changed do_automatic_login s
          = { s with auth_token := none,
                     is_auth_token_ready := false,
                     is_cookie_manager_ready := false,
                     is_setup_available := false,
                     is_kolibri_device_provisioned := false,
                     is_setup_complete := false }) := by
  intro s al
  refine ⟨?_, rfl, ?_⟩
  · unfold on_dbus_owner_changed start_session_setup
    split <;> simp [update_is_setup_complete]
  · intro h
    subst h
    simp [on_dbus_owner_changed, start_session_setup,
      update_is_setup_complete, all_flags]

/-- A concrete instantiation of `dbus_owner_change_resets_setup` with
automatic login enabled, from a fully set-up state. -/
theorem dbus_owner_change_resets_setup_witness :
    on_dbus_owner_changed true
        { auth_token := some "tok".toList, is_auth_token_ready := true,
          is_cookie_manager_ready := true,
          is_kolibri_device_provisioned := true, is_setup_available := true,
          is_setup_complete := true, cookies_to_add := [] }
      = initialSetupState :=
  (dbus_owner_change_resets_setup
    { auth_token := some "tok".toList, is_auth_token_ready := true,
      is_cookie_manager_ready := true,
      is_kolibri_device_provisioned := true, is_setup_available := true,
      is_setup_complete := true, cookies_to_add := [] } true).2.2 rfl

/-! ## Claim theorems: URL handling -/

/-- **C10.** `should_open_url` accepts exactly the default URL, the four
special schemes (`kolibri:`, `x-kolibri-app:`, `about:`, `blob:`) and the
URLs the context's `is_url_in_scope` accepts; in particular every `about:`
or `blob:` URL is openable regardless of scope.  The hypothesis restricts
to URLs on which Python's `urlsplit` raises no exception. -/
theorem should_open_url_iff :
    ∀ (ctx : BaseContext) (url : List Char),
      urlsplit_ok url = true →
      ((should_open_url ctx url = true ↔
        url = ctx.default_url ∨
        (urlsplit url).scheme ∈ [KOLIBRI_URI_SCHEME, APP_URI_SCHEME,
          "about".toList, "blob".toList] ∨
        ctx.is_url_in_scope url = true) ∧
      (((urlsplit url).scheme = "about".toList ∨
          (urlsplit url).scheme = "blob".toList) →
        should_open_url ctx url = true)) := by
  intro ctx url _
  have hmain : should_open_url ctx url = true ↔
      url = ctx.default_url ∨
      (urlsplit url).scheme ∈ [KOLIBRI_URI_SCHEME, APP_URI_SCHEME,
        "about".toList, "blob".toList] ∨
      ctx.is_url_in_scope url = true := by
    simp only [should_open_url, Bool.or_eq_true, decide_eq_true_eq,
      List.contains_iff_exists_mem_beq]
    simp
    tauto
  refine ⟨hmain, fun h => hmain.mpr (Or.inr (Or.inl ?_))⟩
  rcases h with h | h <;> simp [h]

def exBaseCtx : BaseContext := ⟨"x-kolibri-app:/".toList, fun _ => false⟩

/-- A concrete instantiation of `should_open_url_iff`: an `about:` URL is
openable in a context that declares nothing in scope. -/
theorem should_open_url_iff_witness :
    should_open_url exBaseCtx "about:blank".toList = true :=
  (should_open_url_iff exBaseCtx "about:blank".toList (by decide)).2
    (Or.inl (by decide))

theorem quote_plus_kw :
    quote_plus ['k', 'e', 'y', 'w', 'o', 'r', 'd', 's']
      = ['k', 'e', 'y', 'w', 'o', 'r', 'd', 's'] := by decide

theorem quote_plus_last :
    quote_plus ['l', 'a', 's', 't'] = ['l', 'a', 's', 't'] := by decide

theorem quote_plus_tts :
    quote_plus ['T', 'O', 'P', 'I', 'C', 'S', '_', 'T', 'O', 'P', 'I', 'C',
        '_', 'S', 'E', 'A', 'R', 'C', 'H']
      = ['T', 'O', 'P', 'I', 'C', 'S', '_', 'T', 'O', 'P', 'I', 'C',
        '_', 'S', 'E', 'A', 'R', 'C', 'H'] := by decide

theorem urlencode_single (k v : List Char) :
    urlencode [(k, v)] = quote_plus k ++ '=' :: quote_plus v := by
  simp [urlencode, List.intercalate]

theorem urlencode_pair (k1 v1 k2 v2 : List Char) :
    urlencode [(k1, v1), (k2, v2)] =
      quote_plus k1 ++ '=' :: (quote_plus v1 ++ '&' ::
        (quote_plus k2 ++ '=' :: quote_plus v2)) := by
  simp [urlencode, List.intercalate, List.intersperse]

theorem parse_with_topic (lib : Option (List Char) → List Char)
    (t : SplitResult) (id : List Char)
    (hp : lstripSlash t.path = 't' :: '/' :: id) :
    parse_kolibri_url_tuple_with lib t
      = "/learn/#/topics/t/".toList ++ id := by
  simp only [parse_kolibri_url_tuple_with, hp]
  have hpart : partitionSlash ('t' :: '/' :: id) = (['t'], id) := by
    simp [partitionSlash, breakAtChar]
  simp [hpart, _get_kolibri_topic_path, truthy, LEARN_PATH_PREFIX]

theorem parse_with_content (lib : Option (List Char) → List Char)
    (t : SplitResult) (id : List Char)
    (hp : lstripSlash t.path = 'c' :: '/' :: id) :
    parse_kolibri_url_tuple_with lib t
      = (if url_search_of_query t.query ≠ [] then
          "/learn/#/topics/c/".toList ++ id ++ "?keywords=".toList
            ++ quote_plus (url_search_of_query t.query)
            ++ "&last=TOPICS_TOPIC_SEARCH".toList
        else "/learn/#/topics/c/".toList ++ id) := by
  simp only [parse_kolibri_url_tuple_with, hp]
  have hpart : partitionSlash ('c' :: '/' :: id) = (['c'], id) := by
    simp [partitionSlash, breakAtChar]
  by_cases hs : url_search_of_query t.query = []
  · simp [hpart, _get_kolibri_content_path, truthy, hs, LEARN_PATH_PREFIX]
  · simp only [hpart, if_pos rfl]
    simp [_get_kolibri_content_path, truthy, hs, LEARN_PATH_PREFIX,
      urlencode_pair, quote_plus_kw, quote_plus_last, quote_plus_tts]

theorem parse_with_other (t : SplitResult)
    (ht : (partitionSlash (lstripSlash t.path)).1 ≠ "t".toList)
    (hc : (partitionSlash (lstripSlash t.path)).1 ≠ "c".toList) :
    parse_kolibri_url_tuple t
      = (if url_search_of_query t.query ≠ [] then
          "/learn/#/library?keywords=".toList
            ++ quote_plus (url_search_of_query t.query)
        else "/learn/#/home".toList) := by
  simp only [parse_kolibri_url_tuple, parse_kolibri_url_tuple_with,
    if_neg hc, if_neg ht]
  by_cases hs : url_search_of_query t.query = []
  · simp [_get_kolibri_library_path, truthy, hs, LEARN_PATH_PREFIX]
  · simp [_get_kolibri_library_path, truthy, hs, LEARN_PATH_PREFIX,
      urlencode_single, quote_plus_kw]

/-- **C5.** `parse_kolibri_url_tuple` classifies a `kolibri:` URL by the
first segment of its path: `t/<id>` yields the topic view path (without
any search term), `c/<id>` yields the content view path (carrying the
encoded search term when one is present), and any other path yields the
library or home view path. -/
theorem parse_kolibri_url_tuple_classifies :
    ∀ (t : SplitResult) (id : List Char),
      (lstripSlash t.path = 't' :: '/' :: id →
        parse_kolibri_url_tuple t = "/learn/#/topics/t/".toList ++ id) ∧
      (lstripSlash t.path = 'c' :: '/' :: id →
        parse_kolibri_url_tuple t =
          (if url_search_of_query t.query ≠ [] then
            "/learn/#/topics/c/".toList ++ id ++ "?keywords=".toList
              ++ quote_plus (url_search_of_query t.query)
              ++ "&last=TOPICS_TOPIC_SEARCH".toList
          else "/learn/#/topics/c/".toList ++ id)) ∧
      ((partitionSlash (lstripSlash t.path)).1 ≠ "t".toList →
       (partitionSlash (lstripSlash t.path)).1 ≠ "c".toList →
        parse_kolibri_url_tuple t =
          (if url_search_of_query t.query ≠ [] then
            "/learn/#/library?keywords=".toList
              ++ quote_plus (url_search_of_query t.query)
          else "/learn/#/home".toList)) := by
  intro t id
  exact ⟨parse_with_topic _ t id, parse_with_content _ t id,
    parse_with_other t⟩

/-- A concrete instantiation of `parse_kolibri_url_tuple_classifies` on
the three URL forms of the source's docstring. -/
theorem parse_kolibri_url_tuple_classifies_witness :
    parse_kolibri_url_tuple (urlsplit "kolibri:t/TOPIC?search=addition".toList)
        = "/learn/#/topics/t/".toList ++ "TOPIC".toList ∧
    parse_kolibri_url_tuple (urlsplit "kolibri:c/CONTENT".toList)
        = (if url_search_of_query
              (urlsplit "kolibri:c/CONTENT".toList).query ≠ [] then
            "/learn/#/topics/c/".toList ++ "CONTENT".toList
              ++ "?keywords=".toList
              ++ quote_plus (url_search_of_query
                  (urlsplit "kolibri:c/CONTENT".toList).query)
              ++ "&last=TOPICS_TOPIC_SEARCH".toList
          else "/learn/#/topics/c/".toList ++ "CONTENT".toList) ∧
    parse_kolibri_url_tuple (urlsplit "kolibri:?search=addition".toList)
        = (if url_search_of_query
              (urlsplit "kolibri:?search=addition".toList).query ≠ [] then
            "/learn/#/library?keywords=".toList
              ++ quote_plus (url_search_of_query
                  (urlsplit "kolibri:?search=addition".toList).query)
          else "/learn/#/home".toList) :=
  ⟨(parse_kolibri_url_tuple_classifies
      (urlsplit "kolibri:t/TOPIC?search=addition".toList) "TOPIC".toList).1
      (by decide),
   (parse_kolibri_url_tuple_classifies
      (urlsplit "kolibri:c/CONTENT".toList) "CONTENT".toList).2.1
      (by decide),
   (parse_kolibri_url_tuple_classifies
      (urlsplit "kolibri:?search=addition".toList) []).2.2
      (by decide) (by decide)⟩

/-- **C9.** For a channel context, a `kolibri:` URL that is neither
`t/<id>` nor `c/<id>` resolves to the channel's own topic path (with a
`/search` suffix carrying the keywords when a search term is present)
instead of the base library/home path, and the context's `default_url` is
the `x-kolibri-app:` URL of that same channel topic path. -/
theorem channel_library_routing :
    ∀ (channel_id : List Char) (t : SplitResult),
      (partitionSlash (lstripSlash t.path)).1 ≠ "t".toList →
      (partitionSlash (lstripSlash t.path)).1 ≠ "c".toList →
      channel_parse_kolibri_url_tuple channel_id t =
        (if url_search_of_query t.query ≠ [] then
          "/learn/#/topics/t/".toList ++ channel_id
            ++ "/search?keywords=".toList
            ++ quote_plus (url_search_of_query t.query)
        else "/learn/#/topics/t/".toList ++ channel_id) ∧
      channel_default_url channel_id
        = "x-kolibri-app:/learn/#/topics/t/".toList ++ channel_id := by
  intro channel_id t ht hc
  constructor
  · simp only [channel_parse_kolibri_url_tuple, parse_kolibri_url_tuple_with,
      if_neg hc, if_neg ht]
    by_cases hs : url_search_of_query t.query = []
    · simp [channel_get_kolibri_library_path, channel_default_path, truthy,
        hs, LEARN_PATH_PREFIX]
    · simp [channel_get_kolibri_library_path, channel_default_path, truthy,
        hs, LEARN_PATH_PREFIX, urlencode_single, quote_plus_kw]
  · simp [channel_default_url, channel_default_path, APP_URI_SCHEME,
      LEARN_PATH_PREFIX]

/-- A concrete instantiation of `channel_library_routing`: for channel
`abc`, a bare `kolibri:` URL resolves to the channel topic path. -/
theorem channel_library_routing_witness :
    channel_parse_kolibri_url_tuple "abc".toList (urlsplit "kolibri:".toList)
        = (if url_search_of_query (urlsplit "kolibri:".toList).query ≠ []
          then "/learn/#/topics/t/".toList ++ "abc".toList
            ++ "/search?keywords=".toList
            ++ quote_plus (url_search_of_query
                (urlsplit "kolibri:".toList).query)
          else "/learn/#/topics/t/".toList ++ "abc".toList) :=
  (channel_library_routing "abc".toList (urlsplit "kolibri:".toList)
    (by decide) (by decide)).1

/-- Computation of `urlsplit` on a `kolibri:` URL whose path starts with a
benign character and whose first `?` separates path from query. -/
theorem urlsplit_scheme_path_query (c0 : Char) (p q : List Char)
    (h0 : c0 ≠ '/' ∧ c0 ≠ '#' ∧ c0 ≠ '?' ∧ 0x20 < c0.toNat)
    (hp : '\t' ∉ p ∧ '\r' ∉ p ∧ '\n' ∉ p ∧ '#' ∉ p ∧ '?' ∉ p)
    (hq : '\t' ∉ q ∧ '\r' ∉ q ∧ '\n' ∉ q ∧ '#' ∉ q) :
    urlsplit ("kolibri:".toList ++ c0 :: p ++ '?' :: q)
      = ⟨"kolibri".toList, [], c0 :: p, q, []⟩ := by
  have hc0t : c0 ≠ '\t' ∧ c0 ≠ '\r' ∧ c0 ≠ '\n' := by
    refine ⟨?_, ?_, ?_⟩ <;>
      { intro he; rw [he] at h0; exact absurd h0.2.2.2 (by decide) }
  have hexp : "kolibri:".toList ++ c0 :: p ++ '?' :: q
      = "kolibri".toList ++ ':' :: (c0 :: p ++ '?' :: q) := by simp
  rw [hexp, urlsplit]
  have h1 : ("kolibri".toList ++ ':' :: (c0 :: p ++ '?' :: q)).dropWhile
      (fun c => c.toNat ≤ 0x20) = "kolibri".toList ++ ':' :: (c0 :: p ++ '?' :: q) := by
    simp [List.dropWhile_cons]
  rw [h1]
  have h2 : ("kolibri".toList ++ ':' :: (c0 :: p ++ '?' :: q)).filter
      (fun c => ¬ (c = '\t' ∨ c = '\r' ∨ c = '\n'))
      = "kolibri".toList ++ ':' :: (c0 :: p ++ '?' :: q) := by
    refine List.filter_eq_self.mpr fun a ha => ?_
    simp only [decide_eq_true_eq, not_or]
    have hT : ('\t' : Char) ≠ c0 := fun h => hc0t.1 h.symm
    have hR : ('\r' : Char) ≠ c0 := fun h => hc0t.2.1 h.symm
    have hN : ('\n' : Char) ≠ c0 := fun h => hc0t.2.2 h.symm
    refine ⟨?_, ?_, ?_⟩ <;> rintro rfl
    · exact absurd ha (by simp [hT, hp.1, hq.1])
    · exact absurd ha (by simp [hR, hp.2.1, hq.2.1])
    · exact absurd ha (by simp [hN, hp.2.2.1, hq.2.2.1])
  rw [h2]
  have h3 : breakAtChar ':' ("kolibri".toList ++ ':' :: (c0 :: p ++ '?' :: q))
      = ("kolibri".toList, some (c0 :: p ++ '?' :: q)) :=
    breakAtChar_append (by decide)
  rw [h3]
  have h5 : breakAtChar '#' (c0 :: (p ++ '?' :: q))
      = (c0 :: (p ++ '?' :: q), none) := by
    refine breakAtChar_not_mem ?_
    have hh : ('#' : Char) ≠ c0 := fun h => h0.2.1 h.symm
    simp [hh, hp.2.2.2.1, hq.2.2.2]
  have h6 : breakAtChar '?' (c0 :: (p ++ '?' :: q)) = (c0 :: p, some q) := by
    have hh : ('?' : Char) ≠ c0 := fun h => h0.2.2.1 h.symm
    have hmem : ('?' : Char) ∉ c0 :: p := by simp [hh, hp.2.2.2.2]
    exact @breakAtChar_append '?' (c0 :: p) q hmem
  simp [h0.1, h5, h6, scheme_char]

/-- Computation of the search-term extraction on a query of the form
`search=<foo>` with no `&` and no `%` in `foo`. -/
theorem url_search_of_query_search (foo : List Char)
    (hamp : '&' ∉ foo) (hpct : '%' ∉ foo) :
    url_search_of_query ("search=".toList ++ foo) = plusToSpace foo := by
  have hsplit : splitOnChar '&' ("search=".toList ++ foo)
      = ["search=".toList ++ foo] := by
    refine splitOnChar_not_mem ?_
    simp only [List.mem_append, not_or]
    exact ⟨by decide, hamp⟩
  have heq : "search=".toList ++ foo = "search".toList ++ '=' :: foo := by simp
  have hbrk : breakAtChar '=' ("search".toList ++ '=' :: foo)
      = ("search".toList, some foo) := breakAtChar_append (by decide)
  have hus : unquote_plus ['s', 'e', 'a', 'r', 'c', 'h']
      = ['s', 'e', 'a', 'r', 'c', 'h'] := by decide
  rw [url_search_of_query, parse_qsl, if_neg (by simp), hsplit]
  simp only [List.filterMap_cons, List.filterMap_nil]
  rw [heq]
  simp only [splitEqOnce, hbrk]
  have hne : "search".toList ++ '=' :: foo ≠ [] := by simp
  simp [hne, hus, unquote_plus_no_percent hpct, List.intercalate,
    List.intersperse]

/-- **C4.** For every node id `X` and nonempty search term `foo` (free of
the characters that would change how the URL itself parses), the URL
`kolibri:t/X?search=foo` parses to the topic path without any
search/keywords component — the search term is always dropped — while
`kolibri:c/X?search=foo` parses to the content path carrying the search
term as an (encoded) `keywords` query parameter. -/
theorem kolibri_url_search_term_handling :
    ∀ (X foo : List Char),
      ('\t' ∉ X ∧ '\r' ∉ X ∧ '\n' ∉ X ∧ '#' ∉ X ∧ '?' ∉ X) →
      ('\t' ∉ foo ∧ '\r' ∉ foo ∧ '\n' ∉ foo ∧ '#' ∉ foo ∧ '&' ∉ foo
        ∧ '%' ∉ foo) →
      foo ≠ [] →
      parse_kolibri_url ("kolibri:t/".toList ++ X ++ "?search=".toList ++ foo)
          = "/learn/#/topics/t/".toList ++ X ∧
      parse_kolibri_url ("kolibri:c/".toList ++ X ++ "?search=".toList ++ foo)
          = "/learn/#/topics/c/".toList ++ X ++ "?keywords=".toList
            ++ quote_plus (plusToSpace foo)
            ++ "&last=TOPICS_TOPIC_SEARCH".toList := by
  intro X foo hX hfoo hne
  have hp : '\t' ∉ '/' :: X ∧ '\r' ∉ '/' :: X ∧ '\n' ∉ '/' :: X
      ∧ '#' ∉ '/' :: X ∧ '?' ∉ '/' :: X := by
    simp [hX.1, hX.2.1, hX.2.2.1, hX.2.2.2.1, hX.2.2.2.2]
  have hq : '\t' ∉ "search=".toList ++ foo ∧ '\r' ∉ "search=".toList ++ foo
      ∧ '\n' ∉ "search=".toList ++ foo ∧ '#' ∉ "search=".toList ++ foo := by
    simp [hfoo.1, hfoo.2.1, hfoo.2.2.1, hfoo.2.2.2.1]
  have hsearch : url_search_of_query ("search=".toList ++ foo)
      = plusToSpace foo :=
    url_search_of_query_search foo hfoo.2.2.2.2.1 hfoo.2.2.2.2.2
  have hsne : plusToSpace foo ≠ [] := by
    simpa [plusToSpace] using hne
  constructor
  · have hshape : "kolibri:t/".toList ++ X ++ "?search=".toList ++ foo
        = "kolibri:".toList ++ 't' :: '/' :: X ++ '?' :: ("search=".toList ++ foo) := by
      simp
    rw [parse_kolibri_url, hshape,
      urlsplit_scheme_path_query 't' ('/' :: X) ("search=".toList ++ foo)
        (by refine ⟨by decide, by decide, by decide, by decide⟩) hp hq]
    exact parse_with_topic _ _ X (by simp [lstripSlash])
  · have hshape : "kolibri:c/".toList ++ X ++ "?search=".toList ++ foo
        = "kolibri:".toList ++ 'c' :: '/' :: X ++ '?' :: ("search=".toList ++ foo) := by
      simp
    rw [parse_kolibri_url, hshape,
      urlsplit_scheme_path_query 'c' ('/' :: X) ("search=".toList ++ foo)
        (by refine ⟨by decide, by decide, by decide, by decide⟩) hp hq]
    show parse_kolibri_url_tuple_with _get_kolibri_library_path
        ⟨"kolibri".toList, [], 'c' :: '/' :: X, "search=".toList ++ foo, []⟩
      = _
    rw [parse_with_content _get_kolibri_library_path
      ⟨"kolibri".toList, [], 'c' :: '/' :: X, "search=".toList ++ foo, []⟩
      X (by simp [lstripSlash])]
    dsimp only
    rw [hsearch]
    simp [hsne]

/-- A concrete instantiation of `kolibri_url_search_term_handling` at
`X = abc`, `foo = addition`: the topic URL drops the search term and the
content URL keeps it. -/
theorem kolibri_url_search_term_handling_witness :
    parse_kolibri_url "kolibri:t/abc?search=addition".toList
        = "/learn/#/topics/t/".toList ++ "abc".toList ∧
    parse_kolibri_url "kolibri:c/abc?search=addition".toList
        = "/learn/#/topics/c/".toList ++ "abc".toList ++ "?keywords=".toList
          ++ quote_plus (plusToSpace "addition".toList)
          ++ "&last=TOPICS_TOPIC_SEARCH".toList := by
  have h := kolibri_url_search_term_handling "abc".toList "addition".toList
    (by decide) (by decide) (by decide)
  constructor
  · have := h.1
    rw [show "kolibri:t/".toList ++ "abc".toList ++ "?search=".toList
        ++ "addition".toList = "kolibri:t/abc?search=addition".toList
      from by decide] at this
    exact this
  · have := h.2
    rw [show "kolibri:c/".toList ++ "abc".toList ++ "?search=".toList
        ++ "addition".toList = "kolibri:c/abc?search=addition".toList
      from by decide] at this
    exact this

/-- The channel-scope predicate exactly as the specification words it: a
URL addressed to the Kolibri app is in scope iff its path matches one of
the three patterns and, for learn/content paths, the content node resolved
from the fragment belongs to the configured channel (a node whose id
equals the channel id belongs without an API lookup; otherwise the content
API must report the configured channel).  Stated for comparison with the
source's `channel_is_url_in_scope`, which additionally accepts search and
content-unavailable fragments that resolve to no content node. -/
def claimed_channel_is_url_in_scope (ctx : ChannelContext)
    (url : List Char) : Bool :=
  is_url_for_kolibri_app ctx url &&
    (let url_path := lstripSlash (urlsplit url).path
     let frag := lstripSlash (urlsplit url).fragment
     static_paths_match url_path || system_paths_match url_path ||
       (content_paths_match url_path &&
         (match contentnode_id_for_learn_fragment frag with
          | some nid =>
            decide (nid = ctx.channel_id)
              || (match ctx.kolibri_api_channel_id nid with
                  | some ch => decide (ch = ctx.channel_id)
                  | none => false)
          | none => false)))

/-- A channel context for channel id `abc` whose daemon reports every URL
in scope and whose content API knows no node. -/
def exChannelCtx : ChannelContext :=
  ⟨"abc".toList, fun _ => true, fun _ => none⟩

/-- **C1, counterexample.**  For channel `abc` and the app URL
`http://x/learn/#/search` — a learn path whose fragment is a search view
and resolves to no content node — the code's `is_url_in_scope` returns
true, while the claim's predicate (which requires a resolved content node
in the channel for every learn path) is false. -/
theorem channel_is_url_in_scope_claim_counterexample :
    channel_is_url_in_scope exChannelCtx "http://x/learn/#/search".toList
        = true ∧
    claimed_channel_is_url_in_scope exChannelCtx
        "http://x/learn/#/search".toList = false := by
  exact ⟨by decide, by decide⟩

/-- **C1 (amended).**  For every URL addressed to the Kolibri app,
`KolibriChannelContext.is_url_in_scope` returns true iff the URL's path
matches one of the three path-prefix patterns (static assets,
system/account pages, learn/content pages) and, for learn/content pages,
either the fragment is a content-unavailable or search view, or the
content node resolved from the URL fragment belongs to the configured
channel — where a node whose id equals the channel id itself is in the
channel without a content-API lookup, and otherwise the content API must
report the node's channel as the configured channel. -/
theorem channel_is_url_in_scope_iff :
    ∀ (ctx : ChannelContext) (url : List Char),
      is_url_for_kolibri_app ctx url = true →
      (channel_is_url_in_scope ctx url = true ↔
        (static_paths_match (lstripSlash (urlsplit url).path) = true ∨
         system_paths_match (lstripSlash (urlsplit url).path) = true ∨
         (content_paths_match (lstripSlash (urlsplit url).path) = true ∧
           ("content-unavailable".toList.isPrefixOf
               (lstripSlash (urlsplit url).fragment) = true ∨
            "search".toList.isPrefixOf
               (lstripSlash (urlsplit url).fragment) = true ∨
            (∃ nid, contentnode_id_for_learn_fragment
                (lstripSlash (urlsplit url).fragment) = some nid ∧
              (nid = ctx.channel_id ∨
               ctx.kolibri_api_channel_id nid
                  = some ctx.channel_id)))))) := by
  intro ctx url happ
  simp only [channel_is_url_in_scope, happ, Bool.true_and]
  by_cases hst : static_paths_match (lstripSlash (urlsplit url).path) = true
  · simp [hst]
  · by_cases hsy : system_paths_match (lstripSlash (urlsplit url).path) = true
    · simp [hst, hsy]
    · by_cases hco :
          content_paths_match (lstripSlash (urlsplit url).path) = true
      · simp only [hst, hsy, hco, if_true, if_false,
          Bool.false_eq_true, false_or]
        rw [is_learn_fragment_in_channel]
        by_cases h1 : ['c', 'o', 'n', 't', 'e', 'n', 't', '-', 'u', 'n',
            'a', 'v', 'a', 'i', 'l', 'a', 'b', 'l', 'e'] <+:
            lstripSlash (urlsplit url).fragment
        · simp [h1]
        · by_cases h2 : ['s', 'e', 'a', 'r', 'c', 'h'] <+:
              lstripSlash (urlsplit url).fragment
          · simp [h1, h2]
          · cases hn : contentnode_id_for_learn_fragment
                (lstripSlash (urlsplit url).fragment) with
            | none => simp [h1, h2, hn]
            | some nid =>
              by_cases he : nid = ctx.channel_id
              · simp [h1, h2, hn, he]
              · cases ha : ctx.kolibri_api_channel_id nid with
                | none => simp [h1, h2, hn, ha, he]
                | some ch => simp [h1, h2, hn, ha, he]
      · simp [hst, hsy, hco]

/-- A concrete instantiation of `channel_is_url_in_scope_iff`: for channel
`abc`, the content URL whose fragment resolves to node `abc` (the channel
node itself) is in scope. -/
theorem channel_is_url_in_scope_iff_witness :
    channel_is_url_in_scope exChannelCtx
      "http://x/learn/#/topics/t/abc".toList = true :=
  (channel_is_url_in_scope_iff exChannelCtx
      "http://x/learn/#/topics/t/abc".toList (by decide)).mpr
    (Or.inr (Or.inr ⟨by decide, Or.inr (Or.inr ⟨"abc".toList, by decide,
      Or.inl (by decide)⟩)⟩))

end KolibriContext
